import Mathlib

/-- Python `str.lower` restricted to ASCII, as applied to host names and
domains in `app.py` (all inputs of interest are ASCII). -/
def py_lower (s : String) : String :=
  String.mk (s.data.map Char.toLower)

/-- Python whitespace test used by `str.strip()` (space, tab, newline,
carriage return, vertical tab, form feed). -/
def py_isspace (c : Char) : Bool :=
  c == ' ' || c == '\t' || c == '\n' || c == '\r' || c == '\x0b' || c == '\x0c'

/-- Python `str.strip()`: drop leading and trailing whitespace. -/
def py_strip (s : String) : String :=
  String.mk (((s.data.dropWhile py_isspace).reverse.dropWhile py_isspace).reverse)

/-- Python `str.rstrip('.')`: drop all trailing dots, as applied to MX
exchange names in `resolve_mx`. -/
def rstrip_dots (s : String) : String :=
  String.mk ((s.data.reverse.dropWhile (· == '.')).reverse)

/-- Substring test on character lists: does `sub` occur contiguously in the
second list?  Models Python's `sub in h` on strings. -/
def contains_list (sub : List Char) : List Char → Bool
  | [] => sub.isEmpty
  | c :: rest => sub.isPrefixOf (c :: rest) || contains_list sub rest

/-- Python `sub in h` for strings. -/
def py_in (sub h : String) : Bool :=
  contains_list sub.data h.data

/-- Everything after the first `'@'` of a character list; models
`addr.split('@', 1)[1]` (only used when an `'@'` is present). -/
def after_first_at : List Char → List Char
  | [] => []
  | c :: cs => if c = '@' then cs else after_first_at cs

/-- Round a rational to the nearest integer with ties to even: the exact-value
idealisation of CPython `round` on floats. -/
def roundHalfEven (q : ℚ) : ℤ :=
  let f := ⌊q⌋
  let r := q - f
  if r < 1/2 then f
  else if 1/2 < r then f + 1
  else if f % 2 = 0 then f else f + 1

/-- Python `round(x, 1)`: nearest multiple of 1/10, ties to even. -/
def round1 (q : ℚ) : ℚ :=
  (roundHalfEven (10 * q) : ℚ) / 10

/-- The module-level tunables of `app.py` read from the environment at start:
`DEFAULT_REPEATS`, `JITTER_MIN`, `JITTER_MAX`, `GOOGLE_THRESHOLD`,
`DEFAULT_THRESHOLD` (thresholds in milliseconds, jitter in seconds). -/
structure Config where
  DEFAULT_REPEATS : ℤ
  JITTER_MIN : ℚ
  JITTER_MAX : ℚ
  GOOGLE_THRESHOLD : ℚ
  DEFAULT_THRESHOLD : ℚ

/-- The documented default configuration (`REPEATS=1`, `JITTER_MIN=0.03`,
`JITTER_MAX=0.08`, `GOOGLE_THRESHOLD_MS=60`, `DEFAULT_THRESHOLD_MS=80`). -/
def defaultConfig : Config :=
  { DEFAULT_REPEATS := 1
    JITTER_MIN := 3/100
    JITTER_MAX := 8/100
    GOOGLE_THRESHOLD := 60
    DEFAULT_THRESHOLD := 80 }

/-- External world of one verification: `parseaddr` behaviour, the DNS answer
(`none` = the resolver raised / found nothing), SMTP connection + greeting
success, the stream of RCPT replies (`some (code, elapsedMs)` = reply `code`
after `elapsedMs` milliseconds; `none` = the `rcpt` call raised), the stream
of `random.uniform` jitter draws (seconds), the stream of random local parts
for `impossible_addr`, and whether `quit`/`close` succeed at teardown. -/
structure Env where
  parseaddr : String → String
  dns : Option (List (ℕ × String))
  smtpOpen : Bool
  rcpt : ℕ → Option (ℤ × ℚ)
  jitter : ℕ → ℚ
  fakeLocal : ℕ → String
  quitOk : Bool
  closeOk : Bool

/-- Events observable on one SMTP session (plus the connection attempt). -/
inductive Event where
  | connect (host : String) (ok : Bool)
  | rcpt (addr : String) (accepted : Bool) (latencyMs : ℚ) (code : ℤ)
  | rcptRaise (addr : String)
  | sleep (seconds : ℚ)
  | quit (ok : Bool)
  | close (ok : Bool)
deriving DecidableEq

/-- Mutable state threaded through one verification: next index into the RCPT
reply stream (`k`), the jitter stream (`j`), the fake-local-part stream (`f`),
and the event trace so far. -/
structure SessionState where
  k : ℕ
  j : ℕ
  f : ℕ
  trace : List Event
deriving DecidableEq

/-- State at the very start of a verification (before any session exists). -/
def initState : SessionState := ⟨0, 0, 0, []⟩

/-- State just after `_smtp_open` succeeded against host `mx`. -/
def connectedState (mx : String) : SessionState := ⟨0, 0, 0, [.connect mx true]⟩

/-- `get_domain` (app.py:48-52): run `parseaddr`, raise (`none`) when the
extracted address has no `'@'`, else return the part after the first `'@'`,
lower-cased then stripped. -/
def get_domain (pa : String → String) (email : String) : Option String :=
  let addr := pa email
  if '@' ∈ addr.data then
    some (py_strip (py_lower (String.mk (after_first_at addr.data))))
  else
    none

/-- `impossible_addr` (app.py:54-56): a fresh random local part (md5 token +
`-nope-` + random digits, supplied by `env.fakeLocal`) at the given domain;
consumes one element of the fake stream. -/
def impossible_addr (env : Env) (s : SessionState) (domain : String) :
    String × SessionState :=
  (env.fakeLocal s.f ++ "@" ++ domain, { s with f := s.f + 1 })

/-- `resolve_mx` (app.py:58-67): on a resolver error (`none`) return `[]`;
otherwise strip trailing dots from each exchange, stable-sort by preference,
and return the hosts. -/
def resolve_mx (ans : Option (List (ℕ × String))) : List String :=
  match ans with
  | none => []
  | some rs =>
    let prefs_hosts :=
      (rs.map (fun r => (r.1, rstrip_dots r.2))).mergeSort
        (fun a b => decide (a.1 ≤ b.1))
    prefs_hosts.map (·.2)

/-- `mx_brand_from_host` (app.py:69-76): ordered case-insensitive substring
table from MX host to brand tag. -/
def mx_brand_from_host (mx : String) : String :=
  let h := py_lower mx
  if py_in "aspmx" h || py_in "google" h then "google"
  else if py_in "outlook" h || py_in "protection" h then "microsoft"
  else if py_in "proofpoint" h then "proofpoint"
  else if py_in "mimecast" h then "mimecast"
  else if py_in "zoho" h then "zoho"
  else "other"

/-- The acceptance test of `rcpt_once` (app.py:93):
`(200 <= code < 300) or code in (451, 452)`. -/
def acceptedCode (code : ℤ) : Bool :=
  (decide (200 ≤ code) && decide (code < 300)) || code == 451 || code == 452

/-- `rcpt_once` (app.py:88-94): issue one RCPT, time it, round the latency to
one decimal, classify the reply code.  A raise in `srv.rcpt` (modelled by
`none` in the reply stream) escapes as `Except.error`. -/
def rcpt_once (env : Env) (addr : String) (s : SessionState) :
    Except Unit (Bool × ℚ × ℤ) × SessionState :=
  match env.rcpt s.k with
  | none =>
    (.error (), { s with k := s.k + 1, trace := s.trace ++ [.rcptRaise addr] })
  | some (code, elapsedMs) =>
    let latency := round1 elapsedMs
    let accepted := acceptedCode code
    (.ok (accepted, latency, code),
     { s with k := s.k + 1,
              trace := s.trace ++ [.rcpt addr accepted latency code] })

/-- `time.sleep(random.uniform(JITTER_MIN, JITTER_MAX))` (app.py:104):
consume one jitter draw and record the sleep. -/
def py_sleep (env : Env) (s : SessionState) : SessionState :=
  { s with j := s.j + 1, trace := s.trace ++ [.sleep (env.jitter s.j)] }

/-- The `for _ in range(max(1, n))` loop body of `multi_probe` (app.py:99-104):
one RCPT per iteration, then (when `doSleep`, i.e. `n > 1`) one jittered
sleep; collects the acceptance flags and rounded latencies in order.  An
escaping exception aborts the loop. -/
def probe_loop (env : Env) (addr : String) (doSleep : Bool) :
    ℕ → SessionState → Except Unit (List Bool × List ℚ) × SessionState
  | 0, s => (.ok ([], []), s)
  | Nat.succ m, s =>
    match rcpt_once env addr s with
    | (.error e, s1) => (.error e, s1)
    | (.ok (a, lat, _), s1) =>
      let s2 := if doSleep then py_sleep env s1 else s1
      match probe_loop env addr doSleep m s2 with
      | (.error e, s3) => (.error e, s3)
      | (.ok (as, ls), s3) => (.ok (a :: as, lat :: ls), s3)

/-- `multi_probe` (app.py:96-107): repeat `rcpt_once` `max(1, n)` times
(sleeping between iterations when `n > 1`), return
`(any(accs), round(sum(lats)/len(lats), 1))`. -/
def multi_probe (env : Env) (s : SessionState) (addr : String) (n : ℤ) :
    Except Unit (Bool × ℚ) × SessionState :=
  match probe_loop env addr (decide (1 < n)) (max 1 n).toNat s with
  | (.error e, s1) => (.error e, s1)
  | (.ok (accs, lats), s1) =>
    (.ok (accs.any id, round1 (lats.sum / (lats.length : ℚ))), s1)

/-- The events appended by the `finally` block of `verify_email`
(app.py:171-178): `srv.quit()`, falling back to `srv.close()`, swallowing
their failures. -/
def teardownEvents (env : Env) : List Event :=
  if env.quitOk then [.quit true]
  else if env.closeOk then [.quit false, .close true]
  else [.quit false, .close false]

/-- Run the teardown of the `finally` block on a state. -/
def smtp_close (env : Env) (s : SessionState) : SessionState :=
  { s with trace := s.trace ++ teardownEvents env }

/-- The `VerifyResponse` record (app.py:34-41); `catchAll` is serialised as
`catch-all`. -/
structure VerifyResponse where
  email : String
  domain : Option String
  mx_host : Option String
  mx_brand : Option String
  result : String
  catchAll : Bool
  deliverability : String
deriving DecidableEq

/-- Effective repeat count (app.py:128):
`DEFAULT_REPEATS if repeats is None else max(1, int(repeats))`. -/
def repsOf (cfg : Config) (repeats : Option ℤ) : ℤ :=
  match repeats with
  | none => cfg.DEFAULT_REPEATS
  | some r => max 1 r

/-- `verify_email` (app.py:110-178): parse the domain, resolve MX, classify
the brand, open the SMTP session, then probe target / fake1 / fake2 with the
three-step decision rule.  Parse failure and `_smtp_open` failure are caught
(`try/except`) and become invalid/undeliverable responses; the probing block
is guarded only by `try/finally`, so an exception there escapes as
`Except.error` after the teardown has run. -/
def verify_email (cfg : Config) (env : Env) (email : String)
    (repeats : Option ℤ) : Except Unit VerifyResponse × SessionState :=
  match get_domain env.parseaddr email with
  | none =>
    (.ok ⟨email, none, none, none, "invalid", false, "undeliverable"⟩,
     initState)
  | some domain =>
    match resolve_mx env.dns with
    | [] =>
      (.ok ⟨email, some domain, none, none, "invalid", false, "undeliverable"⟩,
       initState)
    | mx :: _ =>
      let brand := mx_brand_from_host mx
      let reps := repsOf cfg repeats
      if env.smtpOpen then
        match multi_probe env (connectedState mx) email reps with
        | (.error _, s) => (.error (), smtp_close env s)
        | (.ok (T_acc, T_mean), s1) =>
          if T_acc then
            let F1p := impossible_addr env s1 domain
            match multi_probe env F1p.2 F1p.1 reps with
            | (.error _, s) => (.error (), smtp_close env s)
            | (.ok (F1_acc, F1_mean), s3) =>
              if F1_acc then
                let F2p := impossible_addr env s3 domain
                match multi_probe env F2p.2 F2p.1 reps with
                | (.error _, s) => (.error (), smtp_close env s)
                | (.ok (_, F2_mean), s5) =>
                  let i_mean := (F1_mean + F2_mean) / 2
                  let abs_delta := |T_mean - i_mean|
                  let threshold :=
                    if brand = "google" then cfg.GOOGLE_THRESHOLD
                    else cfg.DEFAULT_THRESHOLD
                  let is_valid : Bool := decide (threshold ≤ abs_delta)
                  (.ok ⟨email, some domain, some mx, some brand,
                        if is_valid then "valid" else "invalid",
                        true,
                        if is_valid then "deliverable" else "undeliverable"⟩,
                   smtp_close env s5)
              else
                (.ok ⟨email, some domain, some mx, some brand,
                      "valid", false, "deliverable"⟩,
                 smtp_close env s3)
          else
            (.ok ⟨email, some domain, some mx, some brand,
                  "invalid", false, "undeliverable"⟩,
             smtp_close env s1)
      else
        (.ok ⟨email, some domain, some mx, some brand,
              "invalid", false, "undeliverable"⟩,
         ⟨0, 0, 0, [.connect mx false]⟩)

/-- The default response appended by the bulk loops when `verify_email`
raises (app.py:202-205 and 237-240). -/
def defaultBulkResp (e : String) : VerifyResponse :=
  ⟨e, none, none, none, "invalid", false, "undeliverable"⟩

/-- The per-address loop of `/bulk` (app.py:197-206): each address is
verified in its own environment; a raise from `verify_email` is caught and
replaced by the default response, and the loop continues. -/
def verify_bulk (cfg : Config) (reps : Option ℤ) :
    List (String × Env) → List VerifyResponse
  | [] => []
  | (e, env) :: rest =>
    (match (verify_email cfg env e reps).1 with
     | .ok r => r
     | .error _ => defaultBulkResp e) :: verify_bulk cfg reps rest

/-- The per-address loop of `/bulk/csv` (app.py:232-241): identical handling
of a raising `verify_email`. -/
def verify_bulk_csv (cfg : Config) (repeats : Option ℤ) :
    List (String × Env) → List VerifyResponse
  | [] => []
  | (e, env) :: rest =>
    (match (verify_email cfg env e repeats).1 with
     | .ok r => r
     | .error _ => defaultBulkResp e) :: verify_bulk_csv cfg repeats rest

/-- The reply code at position `i` of the reply stream (0 when the call at
`i` raises; only consulted on non-raising positions). -/
def codeAt (env : Env) (i : ℕ) : ℤ :=
  match env.rcpt i with
  | some (c, _) => c
  | none => 0

/-- The acceptance outcome of the RCPT at position `i`. -/
def accAt (env : Env) (i : ℕ) : Bool :=
  match env.rcpt i with
  | some (c, _) => acceptedCode c
  | none => false

/-- The rounded latency of the RCPT at position `i`. -/
def latAt (env : Env) (i : ℕ) : ℚ :=
  match env.rcpt i with
  | some (_, ms) => round1 ms
  | none => 0

/-- Acceptance outcomes of the `m` RCPTs starting at stream position `i`. -/
def accList (env : Env) : ℕ → ℕ → List Bool
  | _, 0 => []
  | i, Nat.succ m => accAt env i :: accList env (i + 1) m

/-- Rounded latencies of the `m` RCPTs starting at stream position `i`. -/
def latList (env : Env) : ℕ → ℕ → List ℚ
  | _, 0 => []
  | i, Nat.succ m => latAt env i :: latList env (i + 1) m

/-- The trace segment appended by `probe_loop` for `m` iterations starting at
reply position `i` and jitter position `j`: one RCPT event per iteration,
followed (when `doSleep`) by one sleep event. -/
def traceSeg (env : Env) (addr : String) (doSleep : Bool) :
    ℕ → ℕ → ℕ → List Event
  | _, _, 0 => []
  | i, j, Nat.succ m =>
    Event.rcpt addr (accAt env i) (latAt env i) (codeAt env i) ::
      ((if doSleep then [Event.sleep (env.jitter j)] else []) ++
        traceSeg env addr doSleep (i + 1) (if doSleep then j + 1 else j) m)

/-- A base environment: identity `parseaddr`, one MX `(10, "mx.d.com")`, a
working session, all RCPTs replying 250 in 100ms, jitter draw 0.05s. -/
def envBase : Env :=
  { parseaddr := id
    dns := some [(10, "mx.d.com")]
    smtpOpen := true
    rcpt := fun _ => some (250, 100)
    jitter := fun _ => 1/20
    fakeLocal := fun i => if i = 0 then "f0aa-nope-1111" else "f1bb-nope-2222"
    quitOk := true
    closeOk := true }

/-- Like `envBase` but every RCPT replies 451 after 100ms. -/
def env451 : Env := { envBase with rcpt := fun _ => some (451, 100) }

/-- Witness env for C6: target accepted (250), every later RCPT rejected
(550). -/
def envC6 : Env :=
  { envBase with
    rcpt := fun i => if i = 0 then some (250, 100) else some (550, 40) }

/-- Witness env for C3, non-google MX: target mean 120ms, fake means 50ms and
40ms, all accepted. -/
def envC3 : Env :=
  { envBase with
    rcpt := fun i =>
      if i = 0 then some (250, 120)
      else if i = 1 then some (250, 50) else some (250, 40) }

/-- Witness env for C3, google MX (`aspmx.l.google.com.`), same latencies. -/
def envC3g : Env := { envC3 with dns := some [(10, "aspmx.l.google.com.")] }

/-- Witness env for C5: the target itself is rejected (550), so the
timing-comparison branch is never reached. -/
def envC5w : Env := { envBase with rcpt := fun _ => some (550, 30) }

/-- Env for C1: the session opens but the very first RCPT raises. -/
def envC1 : Env := { envBase with rcpt := fun _ => none }

/-- The address component returned by CPython `email.utils.parseaddr` on the
inputs used below (behaviour checked against CPython 3): a plain one-`@` bare
address is returned unchanged, while `'a@b@c'` and `'local@'` are rejected by
the RFC 2822 address parser, which returns an empty address for them;
`'@domain'` is returned unchanged. -/
def cpython_parseaddr (s : String) : String :=
  if s = "a@b@c" then "" else if s = "local@" then "" else s

/-- Is an event a connection attempt? -/
def isConnect : Event → Bool
  | .connect _ _ => true
  | _ => false

/-- Env for the C9 witness: resolution succeeds with two MX records (the
lower preference listed second, with a trailing root dot), but the
connection attempt fails. -/
def envC9 : Env :=
  { envBase with
    dns := some [(20, "backup.d.com."), (10, "primary.d.com.")]
    smtpOpen := false }

/-- Env for C8: two repeats with rounded latencies 100.0 and 100.1. -/
def envC8 : Env :=
  { envBase with
    rcpt := fun i => if i = 0 then some (250, 100) else some (250, 1001/10) }

/-!
Shallow embedding of the email-verification engine in `app.py` (RCPT-only
SMTP verification with timing-based catch-all disambiguation).

Modelling conventions:
- Machine floats (latencies in milliseconds, thresholds, jitter seconds) are
  modelled as exact rationals `ℚ`; Python's `round(x, 1)` is modelled as
  rounding to the nearest multiple of 1/10 with ties to even (`round1`).
- Network effects are supplied by an explicit `Env`: DNS answers, SMTP
  connection success, a stream of per-RCPT replies (`none` models the
  `smtplib` call raising an exception), a stream of jitter draws produced by
  `random.uniform(JITTER_MIN, JITTER_MAX)`, and a stream of random local
  parts for `impossible_addr`.
- Side effects of one verification are recorded in a `SessionState`: counters
  into the reply/jitter/fake streams and a trace of session events.
- A Python exception escaping a function is modelled as `Except.error ()`,
  paired with the state reached when it escapes.
- `email.utils.parseaddr` (CPython standard library, external to the repo) is
  modelled as an opaque-to-the-engine function `String → String` returning the
  address component of its parse; concrete instantiations below reproduce
  behaviour checked against CPython 3 (`parseaddr` returns the bare address
  unchanged for plain one-`@` strings, and returns `''` for `'a@b@c'` and
  `'local@'`).
-/

/-! ### Basic state lemmas -/

theorem rcpt_once_f (env : Env) (addr : String) (s : SessionState) :
    ((rcpt_once env addr s).2).f = s.f := by
  unfold rcpt_once
  rcases env.rcpt s.k with _ | ⟨c, ms⟩ <;> rfl

theorem rcpt_once_k (env : Env) (addr : String) (s : SessionState) :
    ((rcpt_once env addr s).2).k = s.k + 1 := by
  unfold rcpt_once
  rcases env.rcpt s.k with _ | ⟨c, ms⟩ <;> rfl

theorem probe_loop_f (env : Env) (addr : String) (d : Bool) :
    ∀ (k : ℕ) (s : SessionState), ((probe_loop env addr d k s).2).f = s.f := by
  intro k
  induction k with
  | zero => intro s; rfl
  | succ m ih =>
    intro s
    unfold probe_loop
    rcases hr : rcpt_once env addr s with ⟨res, s1⟩
    have hf1 : s1.f = s.f := by
      have h := rcpt_once_f env addr s; rw [hr] at h; exact h
    rcases res with e | ⟨a, lat, c⟩
    · simpa using hf1
    · simp only []
      rcases hp : probe_loop env addr d m (if d then py_sleep env s1 else s1)
          with ⟨res2, s3⟩
      have hf3 : s3.f = (if d then py_sleep env s1 else s1).f := by
        have h := ih (if d then py_sleep env s1 else s1); rw [hp] at h; exact h
      have hf2 : (if d then py_sleep env s1 else s1).f = s1.f := by
        cases d <;> simp [py_sleep]
      rcases res2 with e | ⟨as, ls⟩ <;> simp [hp, hf3, hf2, hf1]

theorem probe_loop_k_ok (env : Env) (addr : String) (d : Bool) :
    ∀ (k : ℕ) (s : SessionState) (v : List Bool × List ℚ) (s' : SessionState),
      probe_loop env addr d k s = (.ok v, s') → s'.k = s.k + k := by
  intro k
  induction k with
  | zero => intro s v s' h; cases h; simp
  | succ m ih =>
    intro s v s' h
    unfold probe_loop at h
    rcases hr : rcpt_once env addr s with ⟨res, s1⟩
    rw [hr] at h
    have hk1 : s1.k = s.k + 1 := by
      have hx := rcpt_once_k env addr s; rw [hr] at hx; exact hx
    rcases res with e | ⟨a, lat, c⟩
    · exact absurd h (by simp)
    · simp only [] at h
      rcases hp : probe_loop env addr d m (if d then py_sleep env s1 else s1)
          with ⟨res2, s3⟩
      rw [hp] at h
      have hk2 : (if d then py_sleep env s1 else s1).k = s1.k := by
        cases d <;> simp [py_sleep]
      rcases res2 with e | ⟨as, ls⟩
      · exact absurd h (by simp)
      · have hk3 : s3.k = (if d then py_sleep env s1 else s1).k + m :=
          ih _ _ _ hp
        cases h
        omega

theorem multi_probe_f (env : Env) (s : SessionState) (addr : String) (n : ℤ) :
    ((multi_probe env s addr n).2).f = s.f := by
  unfold multi_probe
  rcases hp : probe_loop env addr (decide (1 < n)) (max 1 n).toNat s with ⟨res, s1⟩
  have hf : s1.f = s.f := by
    have h := probe_loop_f env addr (decide (1 < n)) (max 1 n).toNat s
    rw [hp] at h; exact h
  rcases res with e | ⟨as, ls⟩ <;> simpa using hf

theorem multi_probe_k_ok (env : Env) (s : SessionState) (addr : String) (n : ℤ)
    (v : Bool × ℚ) (s' : SessionState)
    (h : multi_probe env s addr n = (.ok v, s')) :
    s'.k = s.k + (max 1 n).toNat := by
  unfold multi_probe at h
  rcases hp : probe_loop env addr (decide (1 < n)) (max 1 n).toNat s with ⟨res, s1⟩
  rw [hp] at h
  rcases res with e | ⟨as, ls⟩
  · exact absurd h (by simp)
  · cases h
    exact probe_loop_k_ok env addr _ _ _ _ _ hp

theorem smtp_close_f (env : Env) (s : SessionState) :
    (smtp_close env s).f = s.f := rfl

theorem smtp_close_k (env : Env) (s : SessionState) :
    (smtp_close env s).k = s.k := rfl

/-! ### Concrete environments used by witnesses -/

/-- C7: a recipient check is classified accepted exactly when the reply code
is in 200..299 or is 451 or 452; every other code is not accepted.  The first
conjunct fixes what `rcpt_once` returns for a reply `(code, ms)`; the second
characterises the acceptance predicate. -/
theorem rcpt_once_accepts_iff (env : Env) (addr : String) (s : SessionState)
    (code : ℤ) (ms : ℚ) (h : env.rcpt s.k = some (code, ms)) :
    (rcpt_once env addr s).1 = .ok (acceptedCode code, round1 ms, code) ∧
    (acceptedCode code = true ↔
      ((200 ≤ code ∧ code < 300) ∨ code = 451 ∨ code = 452)) := by
  constructor
  · unfold rcpt_once
    rw [h]
  · unfold acceptedCode
    simp only [Bool.or_eq_true, Bool.and_eq_true, decide_eq_true_eq, beq_iff_eq]
    tauto

/-- Witness for C7 at reply code 451 (treated as accepted). -/
theorem rcpt_once_accepts_iff_witness :
    (rcpt_once env451 "a@d.com" initState).1 =
      .ok (acceptedCode 451, round1 100, 451) ∧
    (acceptedCode 451 = true ↔
      ((200 ≤ (451 : ℤ) ∧ (451 : ℤ) < 300) ∨ (451 : ℤ) = 451 ∨ (451 : ℤ) = 452)) :=
  rcpt_once_accepts_iff env451 "a@d.com" initState 451 100 rfl

/-- C4: on every path on which `verify_email` returns a response,
`deliverability` is `"deliverable"` iff `result` is `"valid"`, and
`"undeliverable"` iff `"invalid"`; no other combination occurs. -/
theorem verify_email_deliverability_mirrors_result
    (cfg : Config) (env : Env) (email : String) (reps : Option ℤ)
    (r : VerifyResponse) (sFin : SessionState)
    (h : verify_email cfg env email reps = (.ok r, sFin)) :
    (r.deliverability = "deliverable" ↔ r.result = "valid") ∧
    (r.deliverability = "undeliverable" ↔ r.result = "invalid") := by
  simp only [verify_email] at h
  repeat' split at h
  all_goals injection h with h1 h2
  all_goals first
    | exact Except.noConfusion h1
    | (injection h1 with h1; subst h1; exact ⟨by simp, by simp⟩)

/-- Witness for C4 on the parse-failure path. -/
theorem verify_email_deliverability_mirrors_result_witness :
    ((⟨"bad", none, none, none, "invalid", false,
       "undeliverable"⟩ : VerifyResponse).deliverability = "deliverable" ↔
      (⟨"bad", none, none, none, "invalid", false,
       "undeliverable"⟩ : VerifyResponse).result = "valid") ∧
    ((⟨"bad", none, none, none, "invalid", false,
       "undeliverable"⟩ : VerifyResponse).deliverability = "undeliverable" ↔
      (⟨"bad", none, none, none, "invalid", false,
       "undeliverable"⟩ : VerifyResponse).result = "invalid") :=
  verify_email_deliverability_mirrors_result defaultConfig envBase "bad" none
    _ initState (by rfl)

/-- C6: whenever the target probe is accepted and the first fake probe is not
accepted, `verify_email` returns valid/deliverable with catch-all false —
whatever the measured latencies were — and no second fake address is
generated: exactly one fake was drawn and exactly `2·max(1,reps)` RCPT
commands were issued on the session. -/
theorem verify_email_fake_rejected_valid
    (cfg : Config) (env : Env) (email : String) (reps : Option ℤ)
    (domain mx : String) (rest : List String)
    (T_mean : ℚ) (s1 : SessionState) (F1_mean : ℚ) (s3 : SessionState)
    (hd : get_domain env.parseaddr email = some domain)
    (hmx : resolve_mx env.dns = mx :: rest)
    (hopen : env.smtpOpen = true)
    (hT : multi_probe env (connectedState mx) email (repsOf cfg reps) =
      (.ok (true, T_mean), s1))
    (hF1 : multi_probe env (impossible_addr env s1 domain).2
        (impossible_addr env s1 domain).1 (repsOf cfg reps) =
      (.ok (false, F1_mean), s3)) :
    verify_email cfg env email reps =
      (.ok ⟨email, some domain, some mx, some (mx_brand_from_host mx),
            "valid", false, "deliverable"⟩,
       smtp_close env s3) ∧
    (smtp_close env s3).f = 1 ∧
    (smtp_close env s3).k = 2 * (max 1 (repsOf cfg reps)).toNat := by
  refine ⟨?_, ?_, ?_⟩
  · simp only [verify_email, hd, hmx, hopen, if_true, hT, hF1,
      Bool.false_eq_true, if_false]
  · have h1 : s1.f = 0 := by
      have hx := multi_probe_f env (connectedState mx) email (repsOf cfg reps)
      rw [hT] at hx
      exact hx
    have h3 : s3.f = (impossible_addr env s1 domain).2.f := by
      have hx := multi_probe_f env (impossible_addr env s1 domain).2
        (impossible_addr env s1 domain).1 (repsOf cfg reps)
      rw [hF1] at hx
      exact hx
    have h2 : (impossible_addr env s1 domain).2.f = s1.f + 1 := rfl
    rw [smtp_close_f, h3, h2, h1]
  · have h1 : s1.k = 0 + (max 1 (repsOf cfg reps)).toNat :=
      multi_probe_k_ok env (connectedState mx) email (repsOf cfg reps) _ _ hT
    have h3 : s3.k = (impossible_addr env s1 domain).2.k +
        (max 1 (repsOf cfg reps)).toNat :=
      multi_probe_k_ok env (impossible_addr env s1 domain).2
        (impossible_addr env s1 domain).1 (repsOf cfg reps) _ _ hF1
    have h2 : (impossible_addr env s1 domain).2.k = s1.k := rfl
    rw [smtp_close_k, h3, h2, h1]
    omega

/-- Witness for C6: a concrete run in `envC6` (one repeat). -/
theorem verify_email_fake_rejected_valid_witness :
    verify_email defaultConfig envC6 "a@d.com" none =
      (.ok ⟨"a@d.com", some "d.com", some "mx.d.com",
            some (mx_brand_from_host "mx.d.com"), "valid", false,
            "deliverable"⟩,
       smtp_close envC6
         ⟨2, 0, 1, [.connect "mx.d.com" true,
                    .rcpt "a@d.com" true 100 250,
                    .rcpt "f0aa-nope-1111@d.com" false 40 550]⟩) ∧
    (smtp_close envC6
       ⟨2, 0, 1, [.connect "mx.d.com" true,
                  .rcpt "a@d.com" true 100 250,
                  .rcpt "f0aa-nope-1111@d.com" false 40 550]⟩).f = 1 ∧
    (smtp_close envC6
       ⟨2, 0, 1, [.connect "mx.d.com" true,
                  .rcpt "a@d.com" true 100 250,
                  .rcpt "f0aa-nope-1111@d.com" false 40 550]⟩).k =
      2 * (max 1 (repsOf defaultConfig none)).toNat := by
  refine verify_email_fake_rejected_valid defaultConfig envC6 "a@d.com" none
    "d.com" "mx.d.com" [] 100
    ⟨1, 0, 0, [.connect "mx.d.com" true, .rcpt "a@d.com" true 100 250]⟩ 40
    ⟨2, 0, 1, [.connect "mx.d.com" true,
               .rcpt "a@d.com" true 100 250,
               .rcpt "f0aa-nope-1111@d.com" false 40 550]⟩ ?_ ?_ ?_ ?_ ?_
  · simp [get_domain, envC6, envBase, after_first_at, py_lower, py_strip,
      py_isspace]
  · simp [resolve_mx, envC6, envBase, rstrip_dots, List.mergeSort]
  · rfl
  · simp [multi_probe, probe_loop, rcpt_once, envC6, envBase, defaultConfig,
      repsOf, connectedState, acceptedCode]
    norm_num [round1, roundHalfEven]
  · simp [multi_probe, probe_loop, rcpt_once, envC6, envBase, defaultConfig,
      repsOf, impossible_addr, acceptedCode]
    norm_num [round1, roundHalfEven]

/-- C3: in the catch-all branch (target and first fake both accepted, second
fake probed), the verdict compares `|T_mean − (F1_mean + F2_mean)/2|` against
the google threshold when the brand is `"google"` and the default threshold
otherwise: at least the threshold gives valid/deliverable, below it gives
invalid/undeliverable, and catch-all is true in both outcomes.  The second
fake's acceptance flag is ignored. -/
theorem verify_email_catchall_timing_verdict
    (cfg : Config) (env : Env) (email : String) (reps : Option ℤ)
    (domain mx : String) (rest : List String)
    (T_mean : ℚ) (s1 : SessionState) (F1_mean : ℚ) (s3 : SessionState)
    (F2_acc : Bool) (F2_mean : ℚ) (s5 : SessionState)
    (hd : get_domain env.parseaddr email = some domain)
    (hmx : resolve_mx env.dns = mx :: rest)
    (hopen : env.smtpOpen = true)
    (hT : multi_probe env (connectedState mx) email (repsOf cfg reps) =
      (.ok (true, T_mean), s1))
    (hF1 : multi_probe env (impossible_addr env s1 domain).2
        (impossible_addr env s1 domain).1 (repsOf cfg reps) =
      (.ok (true, F1_mean), s3))
    (hF2 : multi_probe env (impossible_addr env s3 domain).2
        (impossible_addr env s3 domain).1 (repsOf cfg reps) =
      (.ok (F2_acc, F2_mean), s5)) :
    verify_email cfg env email reps =
      (.ok ⟨email, some domain, some mx, some (mx_brand_from_host mx),
            if (if mx_brand_from_host mx = "google" then cfg.GOOGLE_THRESHOLD
                else cfg.DEFAULT_THRESHOLD) ≤ |T_mean - (F1_mean + F2_mean) / 2|
              then "valid" else "invalid",
            true,
            if (if mx_brand_from_host mx = "google" then cfg.GOOGLE_THRESHOLD
                else cfg.DEFAULT_THRESHOLD) ≤ |T_mean - (F1_mean + F2_mean) / 2|
              then "deliverable" else "undeliverable"⟩,
       smtp_close env s5) := by
  simp only [verify_email, hd, hmx, hopen, if_true, hT, hF1, hF2,
    decide_eq_true_eq]

/-- Witness for C3, instantiating the spec's numeric example: |120 − 45| = 75
is below the default threshold 80 (invalid) but above the google threshold 60
(valid); catch-all is true in both. -/
theorem verify_email_catchall_timing_verdict_witness :
    (verify_email defaultConfig envC3 "a@d.com" none).1 =
      .ok ⟨"a@d.com", some "d.com", some "mx.d.com", some "other",
           "invalid", true, "undeliverable"⟩ ∧
    (verify_email defaultConfig envC3g "a@d.com" none).1 =
      .ok ⟨"a@d.com", some "d.com", some "aspmx.l.google.com", some "google",
           "valid", true, "deliverable"⟩ := by
  constructor
  · have h := verify_email_catchall_timing_verdict defaultConfig envC3
      "a@d.com" none "d.com" "mx.d.com" [] 120
      ⟨1, 0, 0, [.connect "mx.d.com" true, .rcpt "a@d.com" true 120 250]⟩ 50
      ⟨2, 0, 1, [.connect "mx.d.com" true, .rcpt "a@d.com" true 120 250,
                 .rcpt "f0aa-nope-1111@d.com" true 50 250]⟩ true 40
      ⟨3, 0, 2, [.connect "mx.d.com" true, .rcpt "a@d.com" true 120 250,
                 .rcpt "f0aa-nope-1111@d.com" true 50 250,
                 .rcpt "f1bb-nope-2222@d.com" true 40 250]⟩
      (by simp [get_domain, envC3, envBase, after_first_at, py_lower, py_strip,
            py_isspace])
      (by simp [resolve_mx, envC3, envBase, rstrip_dots, List.mergeSort])
      rfl
      (by simp [multi_probe, probe_loop, rcpt_once, envC3, envBase,
            defaultConfig, repsOf, connectedState, acceptedCode]
          norm_num [round1, roundHalfEven])
      (by simp [multi_probe, probe_loop, rcpt_once, envC3, envBase,
            defaultConfig, repsOf, impossible_addr, acceptedCode]
          norm_num [round1, roundHalfEven])
      (by simp [multi_probe, probe_loop, rcpt_once, envC3, envBase,
            defaultConfig, repsOf, impossible_addr, acceptedCode]
          norm_num [round1, roundHalfEven])
    rw [h]
    have hb : mx_brand_from_host "mx.d.com" = "other" := by decide
    rw [hb]
    have hng : ¬(("other" : String) = "google") := by decide
    rw [if_neg hng]
    norm_num [defaultConfig]
  · have h := verify_email_catchall_timing_verdict defaultConfig envC3g
      "a@d.com" none "d.com" "aspmx.l.google.com" [] 120
      ⟨1, 0, 0, [.connect "aspmx.l.google.com" true,
                 .rcpt "a@d.com" true 120 250]⟩ 50
      ⟨2, 0, 1, [.connect "aspmx.l.google.com" true,
                 .rcpt "a@d.com" true 120 250,
                 .rcpt "f0aa-nope-1111@d.com" true 50 250]⟩ true 40
      ⟨3, 0, 2, [.connect "aspmx.l.google.com" true,
                 .rcpt "a@d.com" true 120 250,
                 .rcpt "f0aa-nope-1111@d.com" true 50 250,
                 .rcpt "f1bb-nope-2222@d.com" true 40 250]⟩
      (by simp [get_domain, envC3g, envC3, envBase, after_first_at, py_lower,
            py_strip, py_isspace])
      (by simp [resolve_mx, envC3g, envC3, envBase, rstrip_dots,
            List.mergeSort])
      rfl
      (by simp [multi_probe, probe_loop, rcpt_once, envC3g, envC3, envBase,
            defaultConfig, repsOf, connectedState, acceptedCode]
          norm_num [round1, roundHalfEven])
      (by simp [multi_probe, probe_loop, rcpt_once, envC3g, envC3, envBase,
            defaultConfig, repsOf, impossible_addr, acceptedCode]
          norm_num [round1, roundHalfEven])
      (by simp [multi_probe, probe_loop, rcpt_once, envC3g, envC3, envBase,
            defaultConfig, repsOf, impossible_addr, acceptedCode]
          norm_num [round1, roundHalfEven])
    rw [h]
    have hb : mx_brand_from_host "aspmx.l.google.com" = "google" := by decide
    rw [hb]
    rw [if_pos (rfl : ("google" : String) = "google")]
    norm_num [defaultConfig]

/-- C5: a produced response has `catchAll = true` exactly when the target
probe and the first fake probe were both accepted (the timing-comparison
branch was reached); on every other produced path — parse failure, resolution
failure, connection failure, target rejection, first-fake rejection —
`catchAll` is `false`. -/
theorem verify_email_catchall_iff
    (cfg : Config) (env : Env) (email : String) (reps : Option ℤ)
    (r : VerifyResponse) (sFin : SessionState)
    (h : verify_email cfg env email reps = (.ok r, sFin)) :
    r.catchAll = true ↔
      ∃ (domain mx : String) (rest : List String) (T_mean : ℚ)
        (s1 : SessionState) (F1_mean : ℚ) (s3 : SessionState),
        get_domain env.parseaddr email = some domain ∧
        resolve_mx env.dns = mx :: rest ∧
        env.smtpOpen = true ∧
        multi_probe env (connectedState mx) email (repsOf cfg reps) =
          (.ok (true, T_mean), s1) ∧
        multi_probe env (impossible_addr env s1 domain).2
            (impossible_addr env s1 domain).1 (repsOf cfg reps) =
          (.ok (true, F1_mean), s3) := by
  rcases hd : get_domain env.parseaddr email with _ | domain
  · simp only [verify_email, hd] at h
    injection h with h1 h2
    injection h1 with h1
    subst h1
    refine ⟨fun hx => absurd hx (by simp), ?_⟩
    rintro ⟨d2, mx2, rest2, tm, s1x, f1m, s3x, hds, -, -, -, -⟩
    exact Option.noConfusion hds
  rcases hmx : resolve_mx env.dns with _ | ⟨mx, rest⟩
  · simp only [verify_email, hd, hmx] at h
    injection h with h1 h2
    injection h1 with h1
    subst h1
    refine ⟨fun hx => absurd hx (by simp), ?_⟩
    rintro ⟨d2, mx2, rest2, tm, s1x, f1m, s3x, -, hmxs, -, -, -⟩
    exact List.noConfusion hmxs
  cases hop : env.smtpOpen with
  | false =>
    simp only [verify_email, hd, hmx, hop, Bool.false_eq_true, if_false] at h
    injection h with h1 h2
    injection h1 with h1
    subst h1
    refine ⟨fun hx => absurd hx (by simp), ?_⟩
    rintro ⟨d2, mx2, rest2, tm, s1x, f1m, s3x, -, -, hopn, -, -⟩
    exact absurd hopn (by simp)
  | true =>
    rcases hT : multi_probe env (connectedState mx) email (repsOf cfg reps)
      with ⟨tres, s1⟩
    rcases tres with e | ⟨Tacc, Tmean⟩
    · simp only [verify_email, hd, hmx, hop, if_true, hT] at h
      injection h with h1 h2
      exact Except.noConfusion h1
    cases Tacc with
    | false =>
      simp only [verify_email, hd, hmx, hop, if_true, hT, Bool.false_eq_true,
        if_false] at h
      injection h with h1 h2
      injection h1 with h1
      subst h1
      refine ⟨fun hx => absurd hx (by simp), ?_⟩
      rintro ⟨d2, mx2, rest2, tm, s1x, f1m, s3x, hds, hmxs, -, hTs, -⟩
      injection hds with hds'
      subst hds'
      injection hmxs with hm hr
      subst hm
      rw [hT] at hTs
      simp at hTs
    | true =>
      rcases hF1 : multi_probe env (impossible_addr env s1 domain).2
          (impossible_addr env s1 domain).1 (repsOf cfg reps)
        with ⟨f1res, s3⟩
      rcases f1res with e | ⟨F1acc, F1mean⟩
      · simp only [verify_email, hd, hmx, hop, if_true, hT, hF1] at h
        injection h with h1 h2
        exact Except.noConfusion h1
      cases F1acc with
      | false =>
        simp only [verify_email, hd, hmx, hop, if_true, hT, hF1,
          Bool.false_eq_true, if_false] at h
        injection h with h1 h2
        injection h1 with h1
        subst h1
        refine ⟨fun hx => absurd hx (by simp), ?_⟩
        rintro ⟨d2, mx2, rest2, tm, s1x, f1m, s3x, hds, hmxs, -, hTs, hF1s⟩
        injection hds with hds'
        subst hds'
        injection hmxs with hm hr
        subst hm
        rw [hT] at hTs
        simp only [Prod.mk.injEq, Except.ok.injEq, true_and] at hTs
        obtain ⟨-, hs1⟩ := hTs
        subst hs1
        rw [hF1] at hF1s
        simp at hF1s
      | true =>
        rcases hF2 : multi_probe env (impossible_addr env s3 domain).2
            (impossible_addr env s3 domain).1 (repsOf cfg reps)
          with ⟨f2res, s5⟩
        rcases f2res with e | ⟨F2acc, F2mean⟩
        · simp only [verify_email, hd, hmx, hop, if_true, hT, hF1, hF2] at h
          injection h with h1 h2
          exact Except.noConfusion h1
        · simp only [verify_email, hd, hmx, hop, if_true, hT, hF1, hF2] at h
          injection h with h1 h2
          injection h1 with h1
          subst h1
          exact ⟨fun _ => ⟨domain, mx, rest, Tmean, s1, F1mean, s3,
            rfl, rfl, rfl, hT, hF1⟩, fun _ => rfl⟩

/-- Witness for C5 on a concrete target-rejected run: `catchAll` is false and
no accepted target/fake probe pair exists. -/
theorem verify_email_catchall_iff_witness :
    (⟨"a@d.com", some "d.com", some "mx.d.com",
      some (mx_brand_from_host "mx.d.com"), "invalid", false,
      "undeliverable"⟩ : VerifyResponse).catchAll = true ↔
      ∃ (domain mx : String) (rest : List String) (T_mean : ℚ)
        (s1 : SessionState) (F1_mean : ℚ) (s3 : SessionState),
        get_domain envC5w.parseaddr "a@d.com" = some domain ∧
        resolve_mx envC5w.dns = mx :: rest ∧
        envC5w.smtpOpen = true ∧
        multi_probe envC5w (connectedState mx) "a@d.com"
            (repsOf defaultConfig none) = (.ok (true, T_mean), s1) ∧
        multi_probe envC5w (impossible_addr envC5w s1 domain).2
            (impossible_addr envC5w s1 domain).1 (repsOf defaultConfig none) =
          (.ok (true, F1_mean), s3) := by
  refine verify_email_catchall_iff defaultConfig envC5w "a@d.com" none _
    (smtp_close envC5w
      ⟨1, 0, 0, [.connect "mx.d.com" true, .rcpt "a@d.com" false 30 550]⟩) ?_
  simp [verify_email, get_domain, envC5w, envBase, after_first_at, py_lower,
    py_strip, py_isspace, resolve_mx, rstrip_dots, List.mergeSort, multi_probe,
    probe_loop, rcpt_once, acceptedCode, repsOf, defaultConfig, connectedState]
  norm_num [round1, roundHalfEven]

/-- Counterexample to C1 as stated: in `envC1` the probe exception is not
caught and converted to an invalid/undeliverable response — `verify_email`
raises past its own boundary (no response at all is produced, so the
already-known domain/mx fields are not preserved in any result). -/
theorem verify_email_probe_exception_cex :
    (verify_email defaultConfig envC1 "a@d.com" none).1 = .error () := by
  simp [verify_email, get_domain, envC1, envBase, after_first_at, py_lower,
    py_strip, py_isspace, resolve_mx, rstrip_dots, List.mergeSort, multi_probe,
    probe_loop, rcpt_once, repsOf, defaultConfig, connectedState]

/-- C1 (amended): an exception raised by the first recipient check after the
SMTP session is open is not caught inside `verify_email`: the call propagates
the exception to its caller (it returns no response, hence no preserved mx
fields), and only the `finally` teardown (quit, falling back to close) runs
before propagation. -/
theorem verify_email_probe_exception_propagates
    (cfg : Config) (env : Env) (email : String) (reps : Option ℤ)
    (domain mx : String) (rest : List String)
    (hd : get_domain env.parseaddr email = some domain)
    (hmx : resolve_mx env.dns = mx :: rest)
    (hopen : env.smtpOpen = true)
    (hraise : env.rcpt 0 = none) :
    verify_email cfg env email reps =
      (.error (),
       ⟨1, 0, 0, [.connect mx true, .rcptRaise email] ++ teardownEvents env⟩) := by
  have hmp : multi_probe env (connectedState mx) email (repsOf cfg reps) =
      (.error (), ⟨1, 0, 0, [.connect mx true, .rcptRaise email]⟩) := by
    unfold multi_probe
    obtain ⟨m, hm⟩ : ∃ m, (max 1 (repsOf cfg reps)).toNat = m + 1 :=
      ⟨(max 1 (repsOf cfg reps)).toNat - 1, by omega⟩
    rw [hm]
    unfold probe_loop rcpt_once
    simp [connectedState, hraise]
  simp only [verify_email, hd, hmx, hopen, if_true, hmp, smtp_close]

/-- Witness for the amended C1 in the concrete environment `envC1`. -/
theorem verify_email_probe_exception_propagates_witness :
    verify_email defaultConfig envC1 "a@d.com" none =
      (.error (),
       ⟨1, 0, 0, [.connect "mx.d.com" true, .rcptRaise "a@d.com"] ++
         teardownEvents envC1⟩) :=
  verify_email_probe_exception_propagates defaultConfig envC1 "a@d.com" none
    "d.com" "mx.d.com" []
    (by simp [get_domain, envC1, envBase, after_first_at, py_lower, py_strip,
      py_isspace])
    (by simp [resolve_mx, envC1, envBase, rstrip_dots, List.mergeSort])
    rfl
    rfl

/-- Counterexample to C2 as stated: for the two-`@` address `'a@b@c'`,
`get_domain` does not return the part after the last `'@'` (`"c"`) — CPython
`parseaddr` rejects the string, so `get_domain` raises `MalformedAddress`
(returns no domain at all); and `'@domain'`, which the claim says must fail
for its empty local part, instead succeeds and returns `"domain"`. -/
theorem get_domain_cex :
    get_domain cpython_parseaddr "a@b@c" = none ∧
    (get_domain cpython_parseaddr "a@b@c" ≠ some "c") ∧
    get_domain cpython_parseaddr "@domain" = some "domain" := by
  refine ⟨?_, ?_, ?_⟩ <;> decide

/-- Everything after the first `'@'`: characterising equation on a split
`l ++ '@' :: r` with no `'@'` in `l`. -/
theorem after_first_at_append (l : List Char) (r : List Char)
    (hl : '@' ∉ l) : after_first_at (l ++ '@' :: r) = r := by
  induction l with
  | nil => simp [after_first_at]
  | cons c cs ih =>
    rw [List.mem_cons, not_or] at hl
    rw [List.cons_append, after_first_at, if_neg (fun hc => hl.1 hc.symm)]
    exact ih hl.2

/-- C2 (amended): `get_domain` fails (raises) exactly when the
parseaddr-extracted address contains no `'@'` — in particular for every
address CPython `parseaddr` rejects, such as two-`@` strings; otherwise it
returns the substring after the FIRST `'@'` of the extracted address,
lower-cased then stripped, without rejecting empty local or domain parts. -/
theorem get_domain_amended (pa : String → String) (email : String) :
    (('@' ∉ (pa email).data) → get_domain pa email = none) ∧
    (∀ l r : String, '@' ∉ l.data → pa email = l ++ "@" ++ r →
      get_domain pa email = some (py_strip (py_lower r))) := by
  constructor
  · intro hna
    simp [get_domain, hna]
  · intro l r hl hp
    have hdata : (pa email).data = l.data ++ '@' :: r.data := by
      rw [hp]
      show (l.data ++ "@".data) ++ r.data = l.data ++ '@' :: r.data
      simp
    have hmem : '@' ∈ (pa email).data := by
      rw [hdata]; simp
    have hafter : after_first_at ((pa email).data) = r.data := by
      rw [hdata]
      exact after_first_at_append l.data r.data hl
    simp only [get_domain, if_pos hmem, hafter]

/-- Witness for the amended C2: `get_domain` on `"x@Y.Com "` returns the part
after the first `'@'`, lower-cased then stripped. -/
theorem get_domain_amended_witness :
    get_domain id "x@Y.Com " = some (py_strip (py_lower "Y.Com ")) :=
  (get_domain_amended id "x@Y.Com ").2 "x" "Y.Com " (by decide) rfl

theorem rcpt_once_trace_mem (env : Env) (addr : String) (s : SessionState)
    (x : Event) (hx : x ∈ ((rcpt_once env addr s).2).trace) :
    x ∈ s.trace ∨ isConnect x = false := by
  unfold rcpt_once at hx
  rcases hr : env.rcpt s.k with _ | ⟨code, ms⟩ <;> rw [hr] at hx <;>
    simp at hx <;> rcases hx with hx | hx
  · exact .inl hx
  · exact .inr (by rw [hx]; rfl)
  · exact .inl hx
  · exact .inr (by rw [hx]; rfl)

theorem probe_loop_trace_mem (env : Env) (addr : String) (d : Bool) :
    ∀ (k : ℕ) (s : SessionState) (res : Except Unit (List Bool × List ℚ))
      (s' : SessionState), probe_loop env addr d k s = (res, s') →
      ∀ x ∈ s'.trace, x ∈ s.trace ∨ isConnect x = false := by
  intro k
  induction k with
  | zero =>
    intro s res s' h x hx
    cases h
    exact .inl hx
  | succ m ih =>
    intro s res s' h x hx
    unfold probe_loop at h
    rcases hr : rcpt_once env addr s with ⟨res1, s1⟩
    rw [hr] at h
    have hstep : ∀ y ∈ s1.trace, y ∈ s.trace ∨ isConnect y = false := by
      intro y hy
      refine rcpt_once_trace_mem env addr s y ?_
      rw [hr]
      exact hy
    rcases res1 with e | ⟨a, lat, c⟩
    · cases h
      exact hstep x hx
    · simp only [] at h
      rcases hp : probe_loop env addr d m (if d then py_sleep env s1 else s1)
        with ⟨res2, s3⟩
      rw [hp] at h
      have hs3 : ∀ y ∈ s3.trace,
          y ∈ (if d then py_sleep env s1 else s1).trace ∨ isConnect y = false :=
        ih _ _ _ hp
      have hsleep : ∀ y ∈ (if d then py_sleep env s1 else s1).trace,
          y ∈ s1.trace ∨ isConnect y = false := by
        intro y hy
        cases d with
        | false => exact .inl (by simpa using hy)
        | true =>
          simp only [if_true, py_sleep, List.mem_append] at hy
          rcases hy with hy | hy
          · exact .inl hy
          · simp at hy
            exact .inr (by rw [hy]; rfl)
      have hfin : s'.trace = s3.trace := by
        rcases res2 with e | ⟨as, ls⟩ <;> cases h <;> rfl
      rw [hfin] at hx
      rcases hs3 x hx with h3 | h3
      · rcases hsleep x h3 with h4 | h4
        · exact (hstep x h4).imp id id
        · exact .inr h4
      · exact .inr h3

theorem multi_probe_trace_mem (env : Env) (s : SessionState) (addr : String)
    (n : ℤ) (res : Except Unit (Bool × ℚ)) (s' : SessionState)
    (h : multi_probe env s addr n = (res, s'))
    (x : Event) (hx : x ∈ s'.trace) : x ∈ s.trace ∨ isConnect x = false := by
  unfold multi_probe at h
  rcases hp : probe_loop env addr (decide (1 < n)) (max 1 n).toNat s
    with ⟨res1, s1⟩
  rw [hp] at h
  have h1 : s'.trace = s1.trace := by
    rcases res1 with e | ⟨as, ls⟩ <;> cases h <;> rfl
  rw [h1] at hx
  exact probe_loop_trace_mem env addr _ _ _ _ _ hp x hx

theorem smtp_close_trace_mem (env : Env) (s : SessionState) (x : Event)
    (hx : x ∈ (smtp_close env s).trace) :
    x ∈ s.trace ∨ isConnect x = false := by
  unfold smtp_close teardownEvents at hx
  simp only [List.mem_append] at hx
  rcases hx with hx | hx
  · exact .inl hx
  · right
    split at hx <;> try split at hx
    all_goals simp at hx
    all_goals first
      | (rw [hx]; rfl)
      | (rcases hx with hx | hx <;> rw [hx] <;> rfl)

/-- C9: the MX resolver is total — a resolution error yields `[]` rather than
an exception; on success it returns the hostnames, with trailing root-label
dots stripped, of a permutation of the answer set sorted ascending by
preference; and the verification engine only ever connects to the first
hostname of the resolver's output. -/
theorem resolve_mx_total_sorted_first_contacted :
    (resolve_mx none = []) ∧
    (∀ rs : List (ℕ × String), ∃ l : List (ℕ × String),
      l.Perm (rs.map (fun r => (r.1, rstrip_dots r.2))) ∧
      List.Pairwise (fun a b => a.1 ≤ b.1) l ∧
      resolve_mx (some rs) = l.map (·.2)) ∧
    (∀ (cfg : Config) (env : Env) (email : String) (reps : Option ℤ)
      (hst : String) (b : Bool),
      Event.connect hst b ∈ ((verify_email cfg env email reps).2).trace →
      (resolve_mx env.dns).head? = some hst) := by
  refine ⟨rfl, ?_, ?_⟩
  · intro rs
    have hs : List.Pairwise (fun (a b : ℕ × String) => a.1 ≤ b.1)
        ((rs.map (fun r => (r.1, rstrip_dots r.2))).mergeSort
          (fun a b => decide (a.1 ≤ b.1))) := by
      have hx := @List.sorted_mergeSort (ℕ × String)
        (fun a b => decide (a.1 ≤ b.1))
        (fun a b c h₁ h₂ => by simp at *; omega)
        (fun a b => by simp; omega)
        (rs.map (fun r => (r.1, rstrip_dots r.2)))
      simpa using hx
    exact ⟨_, List.mergeSort_perm _ _, hs, rfl⟩
  · intro cfg env email reps hst b hmem
    rcases hd : get_domain env.parseaddr email with _ | domain
    · simp [verify_email, hd, initState] at hmem
    rcases hmx : resolve_mx env.dns with _ | ⟨mx, rest⟩
    · simp [verify_email, hd, hmx, initState] at hmem
    cases hop : env.smtpOpen with
    | false =>
      simp only [verify_email, hd, hmx, hop, Bool.false_eq_true, if_false] at hmem
      simp at hmem
      simp [hmem.1]
    | true =>
      suffices hsuf : hst = mx by simp [hsuf]
      have hconn : isConnect (Event.connect hst b) = true := rfl
      have hbase : ∀ sX : SessionState,
          Event.connect hst b ∈ sX.trace →
          (∀ y ∈ sX.trace, y ∈ (connectedState mx).trace ∨ isConnect y = false) →
          hst = mx := by
        intro sX hin hall
        rcases hall _ hin with hy | hy
        · simp [connectedState] at hy
          exact hy.1
        · rw [hconn] at hy
          exact Bool.noConfusion hy
      rcases hT : multi_probe env (connectedState mx) email (repsOf cfg reps)
        with ⟨tres, s1⟩
      have hs1 : ∀ y ∈ s1.trace,
          y ∈ (connectedState mx).trace ∨ isConnect y = false :=
        fun y hy => multi_probe_trace_mem env _ _ _ _ _ hT y hy
      rcases tres with e | ⟨Tacc, Tmean⟩
      · simp only [verify_email, hd, hmx, hop, if_true, hT] at hmem
        refine hbase _ hmem ?_
        intro y hy
        rcases smtp_close_trace_mem env s1 y hy with h1 | h1
        · exact hs1 y h1
        · exact .inr h1
      cases Tacc with
      | false =>
        simp only [verify_email, hd, hmx, hop, if_true, hT, Bool.false_eq_true,
          if_false] at hmem
        refine hbase _ hmem ?_
        intro y hy
        rcases smtp_close_trace_mem env s1 y hy with h1 | h1
        · exact hs1 y h1
        · exact .inr h1
      | true =>
        rcases hF1 : multi_probe env (impossible_addr env s1 domain).2
            (impossible_addr env s1 domain).1 (repsOf cfg reps)
          with ⟨f1res, s3⟩
        have hs3 : ∀ y ∈ s3.trace,
            y ∈ (connectedState mx).trace ∨ isConnect y = false := by
          intro y hy
          rcases multi_probe_trace_mem env _ _ _ _ _ hF1 y hy with h1 | h1
          · exact hs1 y h1
          · exact .inr h1
        rcases f1res with e | ⟨F1acc, F1mean⟩
        · simp only [verify_email, hd, hmx, hop, if_true, hT, hF1] at hmem
          refine hbase _ hmem ?_
          intro y hy
          rcases smtp_close_trace_mem env s3 y hy with h1 | h1
          · exact hs3 y h1
          · exact .inr h1
        cases F1acc with
        | false =>
          simp only [verify_email, hd, hmx, hop, if_true, hT, hF1,
            Bool.false_eq_true, if_false] at hmem
          refine hbase _ hmem ?_
          intro y hy
          rcases smtp_close_trace_mem env s3 y hy with h1 | h1
          · exact hs3 y h1
          · exact .inr h1
        | true =>
          rcases hF2 : multi_probe env (impossible_addr env s3 domain).2
              (impossible_addr env s3 domain).1 (repsOf cfg reps)
            with ⟨f2res, s5⟩
          have hs5 : ∀ y ∈ s5.trace,
              y ∈ (connectedState mx).trace ∨ isConnect y = false := by
            intro y hy
            rcases multi_probe_trace_mem env _ _ _ _ _ hF2 y hy with h1 | h1
            · exact hs3 y h1
            · exact .inr h1
          rcases f2res with e | ⟨F2acc, F2mean⟩
          · simp only [verify_email, hd, hmx, hop, if_true, hT, hF1, hF2]
              at hmem
            refine hbase _ hmem ?_
            intro y hy
            rcases smtp_close_trace_mem env s5 y hy with h1 | h1
            · exact hs5 y h1
            · exact .inr h1
          · simp only [verify_email, hd, hmx, hop, if_true, hT, hF1, hF2]
              at hmem
            refine hbase _ hmem ?_
            intro y hy
            rcases smtp_close_trace_mem env s5 y hy with h1 | h1
            · exact hs5 y h1
            · exact .inr h1

/-- Witness for C9: the resolver error case, a concrete sorted resolution,
and a concrete run whose only connection attempt names the first resolved
host. -/
theorem resolve_mx_total_sorted_first_contacted_witness :
    resolve_mx none = [] ∧
    (∃ l : List (ℕ × String),
      l.Perm ([(20, "backup.d.com."), (10, "primary.d.com.")].map
        (fun r => (r.1, rstrip_dots r.2))) ∧
      List.Pairwise (fun a b => a.1 ≤ b.1) l ∧
      resolve_mx (some [(20, "backup.d.com."), (10, "primary.d.com.")]) =
        l.map (·.2)) ∧
    (resolve_mx envC9.dns).head? = some "primary.d.com" := by
  refine ⟨resolve_mx_total_sorted_first_contacted.1,
    resolve_mx_total_sorted_first_contacted.2.1 _,
    resolve_mx_total_sorted_first_contacted.2.2 defaultConfig envC9 "a@d.com"
      none "primary.d.com" false ?_⟩
  simp [verify_email, get_domain, envC9, envBase, after_first_at, py_lower,
    py_strip, py_isspace, resolve_mx, rstrip_dots, List.mergeSort]

theorem latList_length (env : Env) :
    ∀ (k i : ℕ), (latList env i k).length = k := by
  intro k
  induction k with
  | zero => intro i; rfl
  | succ m ih => intro i; simp [latList, ih]

/-- Full characterisation of the probe loop on an exception-free window of
the reply stream: it returns the per-repeat acceptance flags and rounded
latencies in order, advances the reply index by `k` (and the jitter index by
`k` when sleeping), and appends one RCPT event per repeat, followed by one
sleep event when `doSleep`. -/
theorem probe_loop_ok (env : Env) (addr : String) (d : Bool) :
    ∀ (k : ℕ) (s : SessionState),
      (∀ t, t < k → (env.rcpt (s.k + t)).isSome = true) →
      probe_loop env addr d k s =
        (.ok (accList env s.k k, latList env s.k k),
         ⟨s.k + k, s.j + (if d then k else 0), s.f,
          s.trace ++ traceSeg env addr d s.k s.j k⟩) := by
  intro k
  induction k with
  | zero =>
    intro s hw
    simp [probe_loop, accList, latList, traceSeg]
  | succ m ih =>
    intro s hw
    have h0 : (env.rcpt s.k).isSome = true := by
      simpa using hw 0 (Nat.succ_pos m)
    rw [Option.isSome_iff_exists] at h0
    obtain ⟨⟨code, ms⟩, hsome⟩ := h0
    have hw' : ∀ t, t < m → (env.rcpt (s.k + 1 + t)).isSome = true := by
      intro t ht
      have hx := hw (t + 1) (by omega)
      rw [show s.k + 1 + t = s.k + (t + 1) by omega]
      exact hx
    unfold probe_loop
    simp only [rcpt_once, hsome]
    cases d with
    | false =>
      have hrec := ih
        ⟨s.k + 1, s.j, s.f,
         s.trace ++ [Event.rcpt addr (acceptedCode code) (round1 ms) code]⟩
        (fun t ht => hw' t ht)
      dsimp only at hrec
      simp only [Bool.false_eq_true, if_false, hrec]
      simp [accList, latList, traceSeg, accAt, latAt, codeAt, hsome,
        List.append_assoc]
      omega
    | true =>
      have hrec := ih
        ⟨s.k + 1, s.j + 1, s.f,
         (s.trace ++ [Event.rcpt addr (acceptedCode code) (round1 ms) code]) ++
           [Event.sleep (env.jitter s.j)]⟩
        (fun t ht => hw' t ht)
      dsimp only at hrec
      simp only [if_true, py_sleep, hrec]
      simp [accList, latList, traceSeg, accAt, latAt, codeAt, hsome,
        List.append_assoc]
      omega

theorem traceSeg_no_sleep (env : Env) (addr : String) :
    ∀ (k i j : ℕ) (q : ℚ), Event.sleep q ∉ traceSeg env addr false i j k := by
  intro k
  induction k with
  | zero => intro i j q; simp [traceSeg]
  | succ m ih =>
    intro i j q
    simp [traceSeg]
    exact ih (i + 1) j q

theorem traceSeg_sleep_jitter (env : Env) (addr : String) :
    ∀ (k i j : ℕ) (q : ℚ),
      Event.sleep q ∈ traceSeg env addr true i j k → ∃ t, q = env.jitter t := by
  intro k
  induction k with
  | zero => intro i j q hq; simp [traceSeg] at hq
  | succ m ih =>
    intro i j q hq
    simp [traceSeg] at hq
    rcases hq with hq | hq
    · exact ⟨j, hq⟩
    · exact ih (i + 1) (j + 1) q hq

/-- C8 (amended): on an exception-free window, a probe repeated
`N = max(1, n)` times returns `acceptedAny` as the OR of the per-repeat
outcomes and `meanLatencyMs` as the arithmetic mean of the per-repeat
latencies rounded to one decimal (ties to even); when `n > 1` one
jitter-valued sleep is inserted after every repeat (in particular between
consecutive repeats), each sleep lying within the configured jitter bounds
that `random.uniform` draws from; when `n ≤ 1` no sleep occurs. -/
theorem multi_probe_spec (cfg : Config) (env : Env) (s : SessionState)
    (addr : String) (n : ℤ)
    (hw : ∀ t, t < (max 1 n).toNat → (env.rcpt (s.k + t)).isSome = true)
    (hj : ∀ i, cfg.JITTER_MIN ≤ env.jitter i ∧ env.jitter i ≤ cfg.JITTER_MAX) :
    multi_probe env s addr n =
      (.ok ((accList env s.k (max 1 n).toNat).any id,
            round1 ((latList env s.k (max 1 n).toNat).sum /
              (((max 1 n).toNat : ℕ) : ℚ))),
       ⟨s.k + (max 1 n).toNat,
        s.j + (if 1 < n then (max 1 n).toNat else 0), s.f,
        s.trace ++ traceSeg env addr (decide (1 < n)) s.k s.j (max 1 n).toNat⟩) ∧
    (n ≤ 1 → ∀ q : ℚ,
      Event.sleep q ∉
        traceSeg env addr (decide (1 < n)) s.k s.j (max 1 n).toNat) ∧
    (∀ q : ℚ,
      Event.sleep q ∈ traceSeg env addr (decide (1 < n)) s.k s.j (max 1 n).toNat →
      cfg.JITTER_MIN ≤ q ∧ q ≤ cfg.JITTER_MAX) := by
  refine ⟨?_, ?_, ?_⟩
  · unfold multi_probe
    rw [probe_loop_ok env addr (decide (1 < n)) (max 1 n).toNat s hw]
    simp [latList_length]
  · intro hn q
    have hdec : decide (1 < n) = false := by simp; omega
    rw [hdec]
    exact traceSeg_no_sleep env addr _ _ _ q
  · intro q hq
    rcases hdec : decide (1 < n) with _ | _
    · rw [hdec] at hq
      exact absurd hq (traceSeg_no_sleep env addr _ _ _ q)
    · rw [hdec] at hq
      obtain ⟨t, rfl⟩ := traceSeg_sleep_jitter env addr _ _ _ q hq
      exact hj t

/-- Counterexample to C8 as stated: with two repeats of latencies 100.0 and
100.1 the returned `meanLatencyMs` is 100.0 (the mean rounded to one decimal,
ties to even), which differs from the arithmetic mean 100.05 of the
per-repeat latencies. -/
theorem multi_probe_mean_cex :
    (multi_probe envC8 initState "a@d.com" 2).1 = .ok (true, 100) ∧
    latList envC8 0 2 = [100, 1001/10] ∧
    (100 : ℚ) ≠ ([(100 : ℚ), 1001/10].sum / 2) := by
  refine ⟨?_, ?_, ?_⟩
  · simp [multi_probe, probe_loop, rcpt_once, envC8, envBase, acceptedCode,
      py_sleep, initState]
    norm_num [round1, roundHalfEven]
  · simp [latList, latAt, envC8, envBase]
    norm_num [round1, roundHalfEven]
  · norm_num

/-- Witness for the amended C8 in `envC8` with `n = 2` (jitter draw 0.05
within the default bounds 0.03–0.08). -/
theorem multi_probe_spec_witness :
    multi_probe envC8 initState "a@d.com" 2 =
      (.ok ((accList envC8 initState.k (max 1 (2 : ℤ)).toNat).any id,
            round1 ((latList envC8 initState.k (max 1 (2 : ℤ)).toNat).sum /
              (((max 1 (2 : ℤ)).toNat : ℕ) : ℚ))),
       ⟨initState.k + (max 1 (2 : ℤ)).toNat,
        initState.j + (if 1 < (2 : ℤ) then (max 1 (2 : ℤ)).toNat else 0), initState.f,
        initState.trace ++
          traceSeg envC8 "a@d.com" (decide (1 < (2 : ℤ))) initState.k
            initState.j (max 1 (2 : ℤ)).toNat⟩) ∧
    ((2 : ℤ) ≤ 1 → ∀ q : ℚ,
      Event.sleep q ∉
        traceSeg envC8 "a@d.com" (decide (1 < (2 : ℤ))) initState.k initState.j
          (max 1 (2 : ℤ)).toNat) ∧
    (∀ q : ℚ,
      Event.sleep q ∈
        traceSeg envC8 "a@d.com" (decide (1 < (2 : ℤ))) initState.k initState.j
          (max 1 (2 : ℤ)).toNat →
      defaultConfig.JITTER_MIN ≤ q ∧ q ≤ defaultConfig.JITTER_MAX) :=
  multi_probe_spec defaultConfig envC8 initState "a@d.com" 2
    (fun t ht => by
      rcases t with _ | t <;> simp [envC8, envBase, initState])
    (fun i => by constructor <;> norm_num [envC8, envBase, defaultConfig])

theorem verify_bulk_length (cfg : Config) (reps : Option ℤ) :
    ∀ items : List (String × Env),
      (verify_bulk cfg reps items).length = items.length := by
  intro items
  induction items with
  | nil => rfl
  | cons it rest ih =>
    rcases it with ⟨e, env⟩
    simp [verify_bulk, ih]

theorem verify_bulk_csv_length (cfg : Config) (reps : Option ℤ) :
    ∀ items : List (String × Env),
      (verify_bulk_csv cfg reps items).length = items.length := by
  intro items
  induction items with
  | nil => rfl
  | cons it rest ih =>
    rcases it with ⟨e, env⟩
    simp [verify_bulk_csv, ih]

theorem verify_bulk_get (cfg : Config) (reps : Option ℤ) :
    ∀ (items : List (String × Env)) (i : ℕ),
      (verify_bulk cfg reps items)[i]? =
        (items[i]?).map (fun it =>
          match (verify_email cfg it.2 it.1 reps).1 with
          | .ok r => r
          | .error _ => defaultBulkResp it.1) := by
  intro items
  induction items with
  | nil => intro i; simp [verify_bulk]
  | cons it rest ih =>
    rcases it with ⟨e, env⟩
    intro i
    cases i with
    | zero => simp [verify_bulk]
    | succ m => simpa [verify_bulk] using ih m

theorem verify_bulk_csv_get (cfg : Config) (reps : Option ℤ) :
    ∀ (items : List (String × Env)) (i : ℕ),
      (verify_bulk_csv cfg reps items)[i]? =
        (items[i]?).map (fun it =>
          match (verify_email cfg it.2 it.1 reps).1 with
          | .ok r => r
          | .error _ => defaultBulkResp it.1) := by
  intro items
  induction items with
  | nil => intro i; simp [verify_bulk_csv]
  | cons it rest ih =>
    rcases it with ⟨e, env⟩
    intro i
    cases i with
    | zero => simp [verify_bulk_csv]
    | succ m => simpa [verify_bulk_csv] using ih m

/-- C10: both bulk loops process each address independently: the output has
one entry per input, the `i`-th entry depends only on the `i`-th address's
own verification (so one raising address leaves every other entry
unaffected), a raising `verify_email` is caught and replaced by the default
response, and the default response carries `result=invalid`,
`deliverability=undeliverable`, `catch-all=false` with `domain`, `mx_host`
and `mx_brand` all absent. -/
theorem bulk_loops_catch_and_continue (cfg : Config) (reps : Option ℤ)
    (items : List (String × Env)) :
    ((verify_bulk cfg reps items).length = items.length ∧
     (verify_bulk_csv cfg reps items).length = items.length) ∧
    (∀ i : ℕ,
      (verify_bulk cfg reps items)[i]? =
        (items[i]?).map (fun it =>
          match (verify_email cfg it.2 it.1 reps).1 with
          | .ok r => r
          | .error _ => defaultBulkResp it.1) ∧
      (verify_bulk_csv cfg reps items)[i]? =
        (items[i]?).map (fun it =>
          match (verify_email cfg it.2 it.1 reps).1 with
          | .ok r => r
          | .error _ => defaultBulkResp it.1)) ∧
    (∀ e : String,
      (defaultBulkResp e).email = e ∧
      (defaultBulkResp e).domain = none ∧
      (defaultBulkResp e).mx_host = none ∧
      (defaultBulkResp e).mx_brand = none ∧
      (defaultBulkResp e).result = "invalid" ∧
      (defaultBulkResp e).catchAll = false ∧
      (defaultBulkResp e).deliverability = "undeliverable") :=
  ⟨⟨verify_bulk_length cfg reps items, verify_bulk_csv_length cfg reps items⟩,
   fun i => ⟨verify_bulk_get cfg reps items i, verify_bulk_csv_get cfg reps items i⟩,
   fun _ => ⟨rfl, rfl, rfl, rfl, rfl, rfl, rfl⟩⟩

/-- Witness for C10 on a concrete two-element batch whose second address
raises mid-probe (`envC1`): instantiates the theorem at that batch. -/
theorem bulk_loops_catch_and_continue_witness :
    ((verify_bulk defaultConfig none
        [("bad", envBase), ("a@d.com", envC1)]).length =
      ([("bad", envBase), ("a@d.com", envC1)] : List (String × Env)).length ∧
     (verify_bulk_csv defaultConfig none
        [("bad", envBase), ("a@d.com", envC1)]).length =
      ([("bad", envBase), ("a@d.com", envC1)] : List (String × Env)).length) ∧
    (verify_bulk defaultConfig none [("bad", envBase), ("a@d.com", envC1)])[1]? =
      (([("bad", envBase), ("a@d.com", envC1)] : List (String × Env))[1]?).map
        (fun it =>
          match (verify_email defaultConfig it.2 it.1 none).1 with
          | .ok r => r
          | .error _ => defaultBulkResp it.1) :=
  ⟨(bulk_loops_catch_and_continue defaultConfig none
      [("bad", envBase), ("a@d.com", envC1)]).1,
   ((bulk_loops_catch_and_continue defaultConfig none
      [("bad", envBase), ("a@d.com", envC1)]).2.1 1).1⟩
